import Mathlib

/-!
Verification model of the HolDis backend reconciliation services.

Shallow embedding of the TypeScript services that react to on-chain invoice
events and drive custodial fund movements:

- BlockradarService (Backend/src/services/blockradar.service.ts):
  getWalletBalance, hasSufficientBalance, releaseFunds, refundFunds,
  holdFunds, pollTransactionStatus.
- ContractService (Backend/src/services/contract.service.ts):
  calculatePlatformFee, getLogs, getBlockNumber, watchBlocks.
- GasManagerService: checkGasBalance.
- EventListenerService: start, processBlockEvents, processEvent and the
  per-event handlers.
- WebhookService.verifyWebhookSignature and
  WebhookController.handleBlockradarWebhook.

Amounts handled through JavaScript BigInt are modelled as Nat (on-chain
unsigned quantities) and Int (results of BigInt subtraction, which can go
negative). External calls that can throw are modelled by Option/Except
inputs and results. Logging is ignored. The SHA-256 HMAC primitive is kept
abstract as a function parameter. Floating-point comparisons performed by
the gas manager (parseFloat of a decimal balance string against 0.01) are
modelled by the boolean outcome of that check, carried in the environment.
-/

namespace HolDis

/-- Address used by the backend to denote the native asset. -/
def zeroAddress : String := "0x0000000000000000000000000000000000000000"

/-- One token entry of the operating wallet balance. -/
structure TokenBalance where
  token : String
  balance : Nat
deriving Repr, DecidableEq

/-- Wallet balance as returned by BlockradarService.getWalletBalance. -/
structure WalletBalance where
  nativeBalance : Nat
  tokens : List TokenBalance
deriving Repr, DecidableEq

/-- A transfer submitted to the custody provider by BlockradarService.transfer.
The amount is an Int because the backend computes it with BigInt subtraction. -/
structure Transfer where
  dest : String
  amount : Int
  token : Option String
  reference : String
deriving Repr, DecidableEq

/-- BlockradarService.hasSufficientBalance. The first argument is the result
of the getWalletBalance call: none models the query throwing, in which case
the catch block returns false. With no token or the zero address the native
balance is compared; otherwise the token entry is searched case-insensitively
and a missing entry yields false. -/
def hasSufficientBalance (balanceResult : Option WalletBalance) (amount : Nat)
    (token : Option String) : Bool :=
  match balanceResult with
  | none => false
  | some balance =>
    match token with
    | none => decide (amount ≤ balance.nativeBalance)
    | some t =>
      if t = zeroAddress then decide (amount ≤ balance.nativeBalance)
      else
        match balance.tokens.find? (fun tb => tb.token.toLower == t.toLower) with
        | none => false
        | some tb => decide (amount ≤ tb.balance)

/-- Request record for BlockradarService.releaseFunds. -/
structure ReleaseFundsRequest where
  invoiceId : String
  toAddress : String
  amount : Nat
  token : String
  platformFee : Nat
deriving Repr, DecidableEq

/-- BlockradarService.releaseFunds: computes the net amount by BigInt
subtraction, checks the wallet balance against the full amount before any
transfer, and only then issues the receiver transfer followed by the
platform-fee transfer. An insufficient balance throws before any transfer. -/
def releaseFunds (balanceResult : Option WalletBalance) (platformWalletAddress : String)
    (request : ReleaseFundsRequest) : Except String (Transfer × Transfer) :=
  let netAmount : Int := (request.amount : Int) - (request.platformFee : Int)
  let isNativeToken : Bool := request.token = zeroAddress
  let tokenForBalance : Option String := if isNativeToken then none else some request.token
  if hasSufficientBalance balanceResult request.amount tokenForBalance then
    Except.ok
      ({ dest := request.toAddress
         amount := netAmount
         token := if isNativeToken then none else some request.token
         reference := "invoice-" ++ request.invoiceId ++ "-payment" },
       { dest := platformWalletAddress
         amount := (request.platformFee : Int)
         token := if isNativeToken then none else some request.token
         reference := "invoice-" ++ request.invoiceId ++ "-fee" })
  else
    Except.error
      ("Insufficient " ++ (if isNativeToken then "native" else "token") ++
        " balance for transfer")

/-- BlockradarService.refundFunds: a single transfer of the full amount to the
payer, with a per-invoice refund reference. -/
def refundFunds (invoiceId payerAddress : String) (amount : Nat) (token : String) :
    Transfer :=
  { dest := payerAddress
    amount := (amount : Int)
    token := if token = zeroAddress then none else some token
    reference := "invoice-" ++ invoiceId ++ "-refund" }

/-- BlockradarService.holdFunds: the body only logs; no provider operation is
issued and no record is written anywhere. -/
def holdFunds : List Transfer := []

/-- ContractService.calculatePlatformFee: amount times basis points over
10000, in BigInt arithmetic. -/
def calculatePlatformFee (amount feeInBasisPoints : Nat) : Nat :=
  amount * feeInBasisPoints / 10000

/-- Transaction status record returned by the provider. -/
structure TransactionStatus where
  status : String
deriving Repr, DecidableEq

/-- The finalization test of BlockradarService.pollTransactionStatus. -/
def isFinalized (s : TransactionStatus) : Bool :=
  s.status == "SUCCESS" || s.status == "FAILED"

/-- Whether the provider response at a given attempt index is a finalized
status (a thrown query, modelled by none, is not). -/
def finalizedAt (getStatus : Nat → Option TransactionStatus) (k : Nat) : Bool :=
  match getStatus k with
  | some st => isFinalized st
  | none => false

/-- The polling loop of BlockradarService.pollTransactionStatus. The counter
attempts is incremented both after a non-final status and after a thrown
status query; the loop runs while attempts is below maxAttempts, so the
remaining iteration budget is the structural fuel. -/
def pollLoop (getStatus : Nat → Option TransactionStatus) (maxAttempts attempts : Nat) :
    Nat → Except String TransactionStatus
  | 0 =>
    Except.error ("Transaction polling timeout after " ++ toString maxAttempts ++
      " attempts")
  | remaining + 1 =>
    match getStatus attempts with
    | some st =>
      if isFinalized st then Except.ok st
      else pollLoop getStatus maxAttempts (attempts + 1) remaining
    | none => pollLoop getStatus maxAttempts (attempts + 1) remaining

/-- The effective attempt bound: a missing option and also an explicit 0 fall
back to 60, because the source uses JavaScript or-defaulting. -/
def effectiveMaxAttempts (maxAttemptsOpt : Option Nat) : Nat :=
  match maxAttemptsOpt with
  | some n => if n = 0 then 60 else n
  | none => 60

/-- BlockradarService.pollTransactionStatus, with the provider responses given
as a function from attempt index to the status query result. -/
def pollTransactionStatus (getStatus : Nat → Option TransactionStatus)
    (maxAttemptsOpt : Option Nat) : Except String TransactionStatus :=
  pollLoop getStatus (effectiveMaxAttempts maxAttemptsOpt) 0
    (effectiveMaxAttempts maxAttemptsOpt)

/-- WebhookService.verifyWebhookSignature: the hex HMAC-SHA256 of the payload
under the secret is compared with the supplied signature. The timing-safe
comparison throws on length mismatch, which the catch block turns into false,
so the result is exactly string equality. The HMAC primitive is abstract. -/
def verifyWebhookSignature (hmacSha256 : String → String → String)
    (secret payload signature : String) : Bool :=
  signature == hmacSha256 secret payload

/-- Outcome of the webhook controller: either a rejection with an HTTP status
and error message, or acceptance (WebhookService.handleWebhook invoked). -/
inductive WebhookResult where
  | rejected (status : Nat) (error : String)
  | processed (status : Nat)
deriving Repr, DecidableEq

/-- Whether the controller invoked WebhookService.handleWebhook. -/
def WebhookResult.isProcessed : WebhookResult → Bool
  | .processed _ => true
  | .rejected _ _ => false

/-- An inbound webhook request: the optional signature header and the raw
body string over which the HMAC is computed. -/
structure WebhookRequest where
  signatureHeader : Option String
  rawBody : String
deriving Repr, DecidableEq

/-- WebhookController.handleBlockradarWebhook: a missing signature header is
rejected with 401, a failing signature verification is rejected with 401, and
only a verified request reaches WebhookService.handleWebhook. -/
def handleBlockradarWebhook (hmacSha256 : String → String → String) (secret : String)
    (req : WebhookRequest) : WebhookResult :=
  match req.signatureHeader with
  | none => WebhookResult.rejected 401 "Missing signature"
  | some signature =>
    if verifyWebhookSignature hmacSha256 secret req.rawBody signature then
      WebhookResult.processed 200
    else
      WebhookResult.rejected 401 "Invalid signature"

/-- Invoice status enumeration (Backend/src/types/contract.ts). -/
inductive InvoiceStatus where
  | pending
  | funded
  | delivered
  | completed
  | cancelled
deriving Repr, DecidableEq

/-- On-chain invoice record as read by ContractService.getInvoice. -/
structure Invoice where
  id : Nat
  issuer : String
  payer : String
  receiver : String
  amount : Nat
  tokenAddress : String
  status : InvoiceStatus
  requiresDelivery : Bool
  fundedAt : Nat
deriving Repr, DecidableEq

/-- The external world seen by the event listener: the chain state, the
custody provider wallet, and the gas check outcome. invoices i is none when
getInvoice throws for that id; walletBalance is none when getWalletBalance
throws; gasHasEnough is the hasEnough field computed by
GasManagerService.checkGasBalance, whose floating-point comparison of the
decimal balance string against 0.01 is modelled by this boolean outcome;
latestBlock is what ContractService.getBlockNumber returns at startup. -/
structure Env where
  invoices : Nat → Option Invoice
  walletBalance : Option WalletBalance
  gasHasEnough : Bool
  platformWalletAddress : String
  latestBlock : Nat

/-- The six contract event kinds watched by the listener. -/
inductive EventKind where
  | invoiceCreated
  | invoiceFunded
  | deliverySubmitted
  | deliveryConfirmed
  | invoiceCompleted
  | invoiceCancelled
deriving Repr, DecidableEq

/-- A decoded event log. The payer and amount fields are only populated for
InvoiceFunded and platformFeeCollected only for InvoiceCompleted; the other
handlers read none of them. -/
structure RawEvent where
  kind : EventKind
  invoiceId : Nat
  blockNumber : Nat
  logIndex : Nat
  payer : String
  amount : Nat
  platformFeeCollected : Nat
deriving Repr, DecidableEq

/-- EventListenerService.handleInvoiceCompleted: reads the invoice from the
chain, runs the gas balance check and throws when it reports not enough, then
calls releaseFunds with the invoice amount and the fee collected on chain.
Any error is rethrown to the caller. The result is the pair of transfers
issued, or the error message thrown before any transfer. -/
def handleInvoiceCompleted (env : Env) (invoiceId platformFeeCollected : Nat) :
    Except String (Transfer × Transfer) :=
  match env.invoices invoiceId with
  | none => Except.error "Failed to get invoice from contract"
  | some invoice =>
    if env.gasHasEnough then
      releaseFunds env.walletBalance env.platformWalletAddress
        { invoiceId := toString invoiceId
          toAddress := invoice.receiver
          amount := invoice.amount
          token := invoice.tokenAddress
          platformFee := platformFeeCollected }
    else
      Except.error "Insufficient gas balance to process invoice"

/-- EventListenerService.handleInvoiceCancelled: reads the invoice and, only
when its on-chain status is Cancelled and fundedAt is positive, issues one
refund transfer of the full invoice amount to the payer. All errors are
caught inside the handler, so it returns the list of transfers issued. -/
def handleInvoiceCancelled (env : Env) (invoiceId : Nat) : List Transfer :=
  match env.invoices invoiceId with
  | none => []
  | some invoice =>
    if invoice.status = InvoiceStatus.cancelled ∧ 0 < invoice.fundedAt then
      [refundFunds (toString invoiceId) invoice.payer invoice.amount invoice.tokenAddress]
    else
      []

/-- EventListenerService.handleInvoiceFunded: reads the invoice and calls
BlockradarService.holdFunds, which performs no operation; errors are caught
inside the handler. No transfer and no record is produced. -/
def handleInvoiceFunded (_env : Env) (_invoiceId : Nat) : List Transfer :=
  holdFunds

/-- EventListenerService.processEvent: dispatches on the event name. The
handlers for created, delivery-submitted and delivery-confirmed only log.
Every handler error is caught and logged here, so processing always
completes; the result is the list of transfers issued by the dispatch. -/
def processEvent (env : Env) (event : RawEvent) : List Transfer :=
  match event.kind with
  | EventKind.invoiceCompleted =>
    match handleInvoiceCompleted env event.invoiceId event.platformFeeCollected with
    | Except.ok (receiverTransfer, platformFeeTransfer) =>
      [receiverTransfer, platformFeeTransfer]
    | Except.error _ => []
  | EventKind.invoiceCancelled => handleInvoiceCancelled env event.invoiceId
  | EventKind.invoiceFunded => handleInvoiceFunded env event.invoiceId
  | _ => []

/-- Successive event deliveries to processEvent, as performed by the watcher
callbacks and by the block-range loop: the listener keeps no state between
deliveries, so the effects concatenate. -/
def processEvents (env : Env) (events : List RawEvent) : List Transfer :=
  events.flatMap (processEvent env)

/-- The fixed kind order used by EventListenerService.processBlockEvents. -/
def eventKindOrder : List EventKind :=
  [EventKind.invoiceCreated, EventKind.invoiceFunded, EventKind.deliverySubmitted,
   EventKind.deliveryConfirmed, EventKind.invoiceCompleted, EventKind.invoiceCancelled]

/-- ContractService.getLogs restricted to one event kind and an inclusive
block range, the chain given as the full ordered log list. -/
def getLogs (chain : List RawEvent) (kind : EventKind) (fromBlock toBlock : Nat) :
    List RawEvent :=
  chain.filter (fun e =>
    e.kind == kind && decide (fromBlock ≤ e.blockNumber) && decide (e.blockNumber ≤ toBlock))

/-- EventListenerService.processBlockEvents: returns immediately when the
range is empty, otherwise fetches the logs kind by kind and feeds each one to
processEvent. Its own try block catches every error, so the caller always
sees normal completion. Result: the logs iterated and the transfers issued. -/
def processBlockEvents (env : Env) (chain : List RawEvent) (fromBlock toBlock : Nat) :
    List RawEvent × List Transfer :=
  if toBlock < fromBlock then ([], [])
  else
    let scanned := eventKindOrder.flatMap (fun kind => getLogs chain kind fromBlock toBlock)
    (scanned, processEvents env scanned)

/-- The in-memory listener state: lastProcessedBlock plus the accumulated
observables of the run (logs scanned and transfers issued). -/
structure ListenerState where
  lastProcessedBlock : Nat
  scanned : List RawEvent
  transfers : List Transfer
deriving Repr, DecidableEq

/-- One ContractService.watchBlocks callback as registered by
EventListenerService.start: process the range from lastProcessedBlock + 1 to
the delivered block number, then set lastProcessedBlock to that number.
processBlockEvents swallows every failure, so the assignment is
unconditional. -/
def onBlockNumber (env : Env) (chain : List RawEvent) (s : ListenerState)
    (blockNumber : Nat) : ListenerState :=
  let step := processBlockEvents env chain (s.lastProcessedBlock + 1) blockNumber
  { lastProcessedBlock := blockNumber
    scanned := s.scanned ++ step.1
    transfers := s.transfers ++ step.2 }

/-- A run of the block-range polling path from a given starting cursor over a
sequence of delivered block numbers. -/
def runListener (env : Env) (chain : List RawEvent) (startBlock : Nat)
    (blocks : List Nat) : ListenerState :=
  blocks.foldl (onBlockNumber env chain)
    { lastProcessedBlock := startBlock, scanned := [], transfers := [] }

/-- EventListenerService.start followed by a sequence of block notifications:
lastProcessedBlock is initialised to the latest chain block read at startup
and is held only in this in-memory state. -/
def startListener (env : Env) (chain : List RawEvent) (blocks : List Nat) :
    ListenerState :=
  runListener env chain env.latestBlock blocks

/-! Concrete fixtures used by the counterexample and witness theorems. -/

/-- A healthy environment: invoice 1 exists with a native-asset amount of
1000, the wallet holds plenty of balance, and the gas check passes. -/
def envReplay : Env :=
  { invoices := fun i =>
      if i = 1 then
        some { id := 1, issuer := "0xissuer", payer := "0xpayer",
               receiver := "0xreceiver", amount := 1000,
               tokenAddress := zeroAddress, status := InvoiceStatus.completed,
               requiresDelivery := false, fundedAt := 50 }
      else none
    walletBalance := some { nativeBalance := 100000, tokens := [] }
    gasHasEnough := true
    platformWalletAddress := "0xplatformwallet"
    latestBlock := 10 }

/-- The InvoiceCompleted log for invoice 1 at block 12, log index 0, with a
platform fee of 25 collected on chain. -/
def completedEventReplay : RawEvent :=
  { kind := EventKind.invoiceCompleted, invoiceId := 1, blockNumber := 12,
    logIndex := 0, payer := "0xpayer", amount := 0, platformFeeCollected := 25 }

/-- The receiver transfer issued for completedEventReplay. -/
def receiverTransferReplay : Transfer :=
  { dest := "0xreceiver", amount := 975, token := none,
    reference := "invoice-1-payment" }

/-- The platform-fee transfer issued for completedEventReplay. -/
def feeTransferReplay : Transfer :=
  { dest := "0xplatformwallet", amount := 25, token := none,
    reference := "invoice-1-fee" }

/-- An environment whose invoice 2 was never funded: fundedAt is zero and the
status is still pending; wallet balance and gas are healthy. -/
def envNeverFunded : Env :=
  { invoices := fun i =>
      if i = 2 then
        some { id := 2, issuer := "0xissuer", payer := "0xpayer",
               receiver := "0xreceiver", amount := 400,
               tokenAddress := zeroAddress, status := InvoiceStatus.pending,
               requiresDelivery := false, fundedAt := 0 }
      else none
    walletBalance := some { nativeBalance := 100000, tokens := [] }
    gasHasEnough := true
    platformWalletAddress := "0xplatformwallet"
    latestBlock := 10 }

/-- An InvoiceCompleted log for the never-funded invoice 2. -/
def completedEventNeverFunded : RawEvent :=
  { kind := EventKind.invoiceCompleted, invoiceId := 2, blockNumber := 7,
    logIndex := 0, payer := "0xpayer", amount := 0, platformFeeCollected := 10 }

/-- Environment for the cursor scenario: invoice 1 exists but the gas check
reports not enough, so handling its InvoiceCompleted event throws. -/
def envGasShort : Env :=
  { invoices := envReplay.invoices
    walletBalance := some { nativeBalance := 100000, tokens := [] }
    gasHasEnough := false
    platformWalletAddress := "0xplatformwallet"
    latestBlock := 10 }

/-- A chain holding exactly the InvoiceCompleted log at block 12. -/
def chainGasShort : List RawEvent := [completedEventReplay]

/-- Invoice 3: funded (fundedAt positive) and then cancelled on chain,
holding 500 of the native asset. -/
def invoiceCancelledFixture : Invoice :=
  { id := 3, issuer := "0xissuer", payer := "0xpayer",
    receiver := "0xreceiver", amount := 500,
    tokenAddress := zeroAddress, status := InvoiceStatus.cancelled,
    requiresDelivery := false, fundedAt := 20 }

/-- An environment holding the funded-then-cancelled invoice 3. -/
def envCancelled : Env :=
  { invoices := fun i => if i = 3 then some invoiceCancelledFixture else none
    walletBalance := some { nativeBalance := 100000, tokens := [] }
    gasHasEnough := true
    platformWalletAddress := "0xplatformwallet"
    latestBlock := 10 }

/-- The InvoiceCancelled log for invoice 3. -/
def cancelledEventFixture : RawEvent :=
  { kind := EventKind.invoiceCancelled, invoiceId := 3, blockNumber := 30,
    logIndex := 1, payer := "0xpayer", amount := 0, platformFeeCollected := 0 }

/-- The refund transfer issued for cancelledEventFixture. -/
def refundTransferFixture : Transfer :=
  { dest := "0xpayer", amount := 500, token := none,
    reference := "invoice-3-refund" }

/-- An environment whose invoice 4 needs 5000 of the native asset while the
operating wallet only holds 100; gas check passes and the invoice exists. -/
def envInsufficient : Env :=
  { invoices := fun i =>
      if i = 4 then
        some { id := 4, issuer := "0xissuer", payer := "0xpayer",
               receiver := "0xreceiver", amount := 5000,
               tokenAddress := zeroAddress, status := InvoiceStatus.completed,
               requiresDelivery := false, fundedAt := 40 }
      else none
    walletBalance := some { nativeBalance := 100, tokens := [] }
    gasHasEnough := true
    platformWalletAddress := "0xplatformwallet"
    latestBlock := 10 }

/-- The invoice record held by envInsufficient. -/
def invoiceInsufficientFixture : Invoice :=
  { id := 4, issuer := "0xissuer", payer := "0xpayer",
    receiver := "0xreceiver", amount := 5000,
    tokenAddress := zeroAddress, status := InvoiceStatus.completed,
    requiresDelivery := false, fundedAt := 40 }

/-- Provider stream fixture: pending twice, then success at attempt 2. -/
def pollStreamWitness : Nat → Option TransactionStatus :=
  fun k => if k = 2 then some { status := "SUCCESS" }
    else some { status := "PENDING" }

/-- C1: the claim says a second delivery of the same log entry (identical
invoice id, event kind, block number, log index) is inert because its
idempotency key is already resolved. The listener derives no idempotency key
and consults no store: delivering the identical InvoiceCompleted log twice
issues the receiver and platform-fee transfers twice, four fund movements in
place of two. -/
theorem holdis_C1_replay_duplicates_fund_movement :
    processEvent envReplay completedEventReplay =
      [receiverTransferReplay, feeTransferReplay] ∧
    processEvents envReplay [completedEventReplay, completedEventReplay] =
      [receiverTransferReplay, feeTransferReplay,
       receiverTransferReplay, feeTransferReplay] := by decide

/-- C2: the claim says an InvoiceCompleted event delivered while no held
custody record exists is skipped. The handler checks no custody precondition
(the backend keeps no custody records at all, holdFunds is a no-op): for
invoice 2, never funded (fundedAt is 0, status still pending), the delivered
InvoiceCompleted event still issues both release transfers. -/
theorem holdis_C2_completed_without_funding_still_releases :
    (envNeverFunded.invoices 2).map Invoice.fundedAt = some 0 ∧
    processEvent envNeverFunded completedEventNeverFunded =
      [{ dest := "0xreceiver", amount := 390, token := none,
         reference := "invoice-2-payment" },
       { dest := "0xplatformwallet", amount := 10, token := none,
         reference := "invoice-2-fee" }] := by decide

/-- C4: the claim says the cursor advances past a block range only after
every event in it is resolved or explicitly skipped, never while one failed.
In the run below the range 11-12 contains an InvoiceCompleted event whose
handling throws (gas check reports not enough) and is merely swallowed by
processEvent, yet lastProcessedBlock still advances to 12. -/
theorem holdis_C4_cursor_advances_past_failed_event :
    (startListener envGasShort chainGasShort [12]).scanned =
      [completedEventReplay] ∧
    handleInvoiceCompleted envGasShort 1 25 =
      Except.error "Insufficient gas balance to process invoice" ∧
    (startListener envGasShort chainGasShort [12]).transfers = [] ∧
    (startListener envGasShort chainGasShort [12]).lastProcessedBlock = 12 := by
  refine ⟨by decide, rfl, by decide, by decide⟩

/-- C6 counterexample: the claim says a retry with the same idempotency key
produces no second refund transfer. The handler keys nothing: redelivering
the identical InvoiceCancelled log issues a second full refund of 500 to the
payer. -/
theorem holdis_C6_retry_issues_second_refund :
    processEvent envCancelled cancelledEventFixture = [refundTransferFixture] ∧
    processEvents envCancelled [cancelledEventFixture, cancelledEventFixture] =
      [refundTransferFixture, refundTransferFixture] ∧
    refundTransferFixture.amount = 500 ∧
    refundTransferFixture.dest = "0xpayer" := by decide

/-- C9: hasSufficientBalance wraps the wallet-balance query in a try block
whose catch returns false, so a failed balance read is reported as
insufficient balance for every amount and token, never as sufficient and
never as an error. -/
theorem holdis_C9_failed_balance_query_returns_false (amount : Nat)
    (token : Option String) :
    hasSufficientBalance none amount token = false := rfl

/-- C3: for every amount and every basis-point fee f with f at most 1000, a
successful release sends exactly amount minus the platform fee to the
receiver and exactly the platform fee to the platform wallet, the two
amounts add back to the amount exactly in integer arithmetic, the fee never
exceeds the amount, and the receiver amount is nonnegative. -/
theorem holdis_C3_fee_arithmetic (amount f : Nat) (hf : f ≤ 1000)
    (balanceResult : Option WalletBalance)
    (platformWalletAddress invoiceId toAddress : String) (t1 t2 : Transfer)
    (h : releaseFunds balanceResult platformWalletAddress
        { invoiceId := invoiceId, toAddress := toAddress, amount := amount,
          token := zeroAddress, platformFee := calculatePlatformFee amount f } =
      Except.ok (t1, t2)) :
    t1.dest = toAddress ∧
    t1.amount = (amount : Int) - (calculatePlatformFee amount f : Int) ∧
    t2.dest = platformWalletAddress ∧
    t2.amount = (calculatePlatformFee amount f : Int) ∧
    t1.amount + t2.amount = (amount : Int) ∧
    calculatePlatformFee amount f ≤ amount ∧
    (0 : Int) ≤ t1.amount := by
  have hfee : calculatePlatformFee amount f ≤ amount := by
    unfold calculatePlatformFee
    calc amount * f / 10000 ≤ amount * 10000 / 10000 :=
          Nat.div_le_div_right (Nat.mul_le_mul_left amount (hf.trans (by norm_num)))
      _ = amount := Nat.mul_div_cancel amount (by norm_num)
  simp only [releaseFunds, eq_self_iff_true, decide_True, if_true] at h
  split at h
  · simp only [Except.ok.injEq, Prod.mk.injEq] at h
    obtain ⟨h1, h2⟩ := h
    subst h1
    subst h2
    refine ⟨rfl, rfl, rfl, rfl, ?_, hfee, ?_⟩
    · dsimp only
      omega
    · dsimp only
      omega
  · exact absurd h (by simp)

/-- C3 witness: amount 1000 with fee 250 basis points yields a platform fee
of 25, a receiver amount of 975 and exact recomposition. -/
theorem holdis_C3_fee_arithmetic_witness :
    receiverTransferReplay.dest = "0xreceiver" ∧
    receiverTransferReplay.amount =
      (1000 : Int) - (calculatePlatformFee 1000 250 : Int) ∧
    feeTransferReplay.dest = "0xplatformwallet" ∧
    feeTransferReplay.amount = (calculatePlatformFee 1000 250 : Int) ∧
    receiverTransferReplay.amount + feeTransferReplay.amount = (1000 : Int) ∧
    calculatePlatformFee 1000 250 ≤ 1000 ∧
    (0 : Int) ≤ receiverTransferReplay.amount :=
  holdis_C3_fee_arithmetic 1000 250 (by decide)
    (some { nativeBalance := 100000, tokens := [] }) "0xplatformwallet" "1"
    "0xreceiver" receiverTransferReplay feeTransferReplay rfl

/-- C5: when the operating wallet balance is below the invoice amount, the
balance check inside releaseFunds runs before any transfer, the handler fails
with the insufficient-balance error, and processing the InvoiceCompleted
event issues no transfer at all (so no custody state can move to released). -/
theorem holdis_C5_insufficient_balance_fails_fast (env : Env)
    (invoiceId fee : Nat) (invoice : Invoice) (w : WalletBalance)
    (hinv : env.invoices invoiceId = some invoice)
    (hnative : invoice.tokenAddress = zeroAddress)
    (hw : env.walletBalance = some w)
    (hbal : w.nativeBalance < invoice.amount)
    (hgas : env.gasHasEnough = true) :
    handleInvoiceCompleted env invoiceId fee =
      Except.error "Insufficient native balance for transfer" ∧
    ∀ e : RawEvent, e.kind = EventKind.invoiceCompleted →
      e.invoiceId = invoiceId → e.platformFeeCollected = fee →
      processEvent env e = [] := by
  have hcheck : hasSufficientBalance env.walletBalance invoice.amount none = false := by
    simp only [hasSufficientBalance, hw]
    exact decide_eq_false (by omega)
  have hmain : handleInvoiceCompleted env invoiceId fee =
      Except.error "Insufficient native balance for transfer" := by
    simp only [handleInvoiceCompleted, hinv, hgas, if_true]
    simp only [releaseFunds, hnative, eq_self_iff_true, decide_True, if_true]
    rw [hcheck]
    rfl
  refine ⟨hmain, ?_⟩
  intro e hk hid hfee
  obtain ⟨k, iid, b, li, p, a, pf⟩ := e
  dsimp only at hk hid hfee
  subst hk
  subst hid
  subst hfee
  simp only [processEvent]
  rw [hmain]

/-- C5 witness: invoice 4 needs 5000 while the wallet holds 100; the handler
fails with the insufficient-balance error and the event produces no
transfer. -/
theorem holdis_C5_insufficient_balance_fails_fast_witness :
    handleInvoiceCompleted envInsufficient 4 100 =
      Except.error "Insufficient native balance for transfer" ∧
    processEvent envInsufficient
      { kind := EventKind.invoiceCompleted, invoiceId := 4, blockNumber := 9,
        logIndex := 0, payer := "0xpayer", amount := 0,
        platformFeeCollected := 100 } = [] :=
  have h := holdis_C5_insufficient_balance_fails_fast envInsufficient 4 100
    invoiceInsufficientFixture { nativeBalance := 100, tokens := [] }
    rfl rfl rfl (by decide) rfl
  ⟨h.1, h.2 _ rfl rfl rfl⟩

/-- C6 (amended): for an invoice read back as cancelled with a positive
fundedAt, each delivery of InvoiceCancelled produces exactly one refund
transfer of the full invoice amount to the payer; when the invoice is not in
that state no transfer is produced; and since no idempotency key is kept, a
redelivery of the same event produces a second identical refund transfer. -/
theorem holdis_C6_cancellation_refund (env : Env) (invoiceId : Nat)
    (invoice : Invoice) (e : RawEvent)
    (hinv : env.invoices invoiceId = some invoice)
    (hk : e.kind = EventKind.invoiceCancelled)
    (hid : e.invoiceId = invoiceId) :
    (invoice.status = InvoiceStatus.cancelled ∧ 0 < invoice.fundedAt →
      handleInvoiceCancelled env invoiceId =
        [refundFunds (toString invoiceId) invoice.payer invoice.amount
          invoice.tokenAddress] ∧
      (refundFunds (toString invoiceId) invoice.payer invoice.amount
        invoice.tokenAddress).dest = invoice.payer ∧
      (refundFunds (toString invoiceId) invoice.payer invoice.amount
        invoice.tokenAddress).amount = (invoice.amount : Int) ∧
      processEvents env [e, e] =
        [refundFunds (toString invoiceId) invoice.payer invoice.amount
          invoice.tokenAddress,
         refundFunds (toString invoiceId) invoice.payer invoice.amount
          invoice.tokenAddress]) ∧
    (¬(invoice.status = InvoiceStatus.cancelled ∧ 0 < invoice.fundedAt) →
      handleInvoiceCancelled env invoiceId = []) := by
  have hproc : processEvent env e = handleInvoiceCancelled env invoiceId := by
    obtain ⟨k, iid, b, li, p, a, pf⟩ := e
    dsimp only at hk hid
    subst hk
    subst hid
    rfl
  constructor
  · intro hc
    have hone : handleInvoiceCancelled env invoiceId =
        [refundFunds (toString invoiceId) invoice.payer invoice.amount
          invoice.tokenAddress] := by
      simp only [handleInvoiceCancelled, hinv]
      rw [if_pos hc]
    refine ⟨hone, rfl, rfl, ?_⟩
    simp only [processEvents, List.flatMap_cons, List.flatMap_nil, hproc, hone]
    rfl
  · intro hc
    simp only [handleInvoiceCancelled, hinv]
    rw [if_neg hc]

/-- C6 witness: the funded-then-cancelled invoice 3 yields exactly one refund
of 500 to the payer per delivery, and redelivery yields the second one. -/
theorem holdis_C6_cancellation_refund_witness :
    handleInvoiceCancelled envCancelled 3 =
      [refundFunds (toString 3) invoiceCancelledFixture.payer
        invoiceCancelledFixture.amount invoiceCancelledFixture.tokenAddress] ∧
    (refundFunds (toString 3) invoiceCancelledFixture.payer
      invoiceCancelledFixture.amount invoiceCancelledFixture.tokenAddress).dest =
      invoiceCancelledFixture.payer ∧
    (refundFunds (toString 3) invoiceCancelledFixture.payer
      invoiceCancelledFixture.amount invoiceCancelledFixture.tokenAddress).amount =
      (invoiceCancelledFixture.amount : Int) ∧
    processEvents envCancelled [cancelledEventFixture, cancelledEventFixture] =
      [refundFunds (toString 3) invoiceCancelledFixture.payer
        invoiceCancelledFixture.amount invoiceCancelledFixture.tokenAddress,
       refundFunds (toString 3) invoiceCancelledFixture.payer
        invoiceCancelledFixture.amount invoiceCancelledFixture.tokenAddress] :=
  (holdis_C6_cancellation_refund envCancelled 3 invoiceCancelledFixture
    cancelledEventFixture rfl rfl rfl).1 (by decide)

/-- When no attempt within the remaining budget yields a finalized status,
the polling loop exhausts the budget and throws the timeout error. -/
lemma pollLoop_timeout (gs : Nat → Option TransactionStatus) (m : Nat) :
    ∀ (r a : Nat), (∀ k, k < r → finalizedAt gs (a + k) = false) →
      pollLoop gs m a r =
        Except.error ("Transaction polling timeout after " ++ toString m ++
          " attempts") := by
  intro r
  induction r with
  | zero => intro a _; rfl
  | succ r ih =>
    intro a h
    have h0 : finalizedAt gs a = false := by simpa using h 0 (Nat.succ_pos r)
    have hrec := ih (a + 1) (fun k hk => by
      have hx := h (k + 1) (Nat.succ_lt_succ hk)
      have hy : a + (k + 1) = a + 1 + k := by omega
      rwa [hy] at hx)
    unfold pollLoop
    cases hgs : gs a with
    | none => exact hrec
    | some st =>
      have hf : isFinalized st = false := by
        unfold finalizedAt at h0
        rwa [hgs] at h0
      simpa [hf] using hrec

/-- When the first finalized provider response within the budget sits at
offset k, the polling loop returns exactly that status. -/
lemma pollLoop_first (gs : Nat → Option TransactionStatus) (m : Nat) :
    ∀ (r k a : Nat) (st : TransactionStatus), k < r → gs (a + k) = some st →
      isFinalized st = true → (∀ j, j < k → finalizedAt gs (a + j) = false) →
      pollLoop gs m a r = Except.ok st := by
  intro r
  induction r with
  | zero => intro k a st hk _ _ _; exact absurd hk (Nat.not_lt_zero k)
  | succ r ih =>
    intro k a st hk hgs hfin hmin
    cases k with
    | zero =>
      simp only [Nat.add_zero] at hgs
      unfold pollLoop
      rw [hgs]
      simp [hfin]
    | succ k =>
      have h0 : finalizedAt gs a = false := by simpa using hmin 0 (Nat.succ_pos k)
      have hrec := ih k (a + 1) st (Nat.lt_of_succ_lt_succ hk)
        (by
          have hy : a + 1 + k = a + (k + 1) := by omega
          rwa [hy])
        hfin
        (fun j hj => by
          have hx := hmin (j + 1) (Nat.succ_lt_succ hj)
          have hy : a + (j + 1) = a + 1 + j := by omega
          rwa [hy] at hx)
      unfold pollLoop
      cases hgs0 : gs a with
      | none => exact hrec
      | some st0 =>
        have hf : isFinalized st0 = false := by
          unfold finalizedAt at h0
          rwa [hgs0] at h0
        simpa [hf] using hrec

/-- The polling loop always returns: either a finalized status or the
timeout error. -/
lemma pollLoop_total (gs : Nat → Option TransactionStatus) (m : Nat) :
    ∀ (r a : Nat),
      (∃ st, pollLoop gs m a r = Except.ok st ∧ isFinalized st = true) ∨
      pollLoop gs m a r =
        Except.error ("Transaction polling timeout after " ++ toString m ++
          " attempts") := by
  intro r
  induction r with
  | zero => intro a; right; rfl
  | succ r ih =>
    intro a
    unfold pollLoop
    cases hgs : gs a with
    | none => exact ih (a + 1)
    | some st =>
      cases hf : isFinalized st with
      | true => exact Or.inl ⟨st, by simp [hf], hf⟩
      | false => simpa [hf] using ih (a + 1)

/-- C7: for every provider response stream and every caller-supplied attempt
bound, the status polling returns: it yields either a finalized status or
the timeout error; when no attempt within the effective bound is finalized
it fails with the timeout error; and when the first finalized response sits
at attempt k within the bound it returns exactly that status. -/
theorem holdis_C7_polling_bounded (getStatus : Nat → Option TransactionStatus)
    (maxAttemptsOpt : Option Nat) :
    ((∃ st, pollTransactionStatus getStatus maxAttemptsOpt = Except.ok st ∧
        isFinalized st = true) ∨
      pollTransactionStatus getStatus maxAttemptsOpt =
        Except.error ("Transaction polling timeout after " ++
          toString (effectiveMaxAttempts maxAttemptsOpt) ++ " attempts")) ∧
    ((∀ k, k < effectiveMaxAttempts maxAttemptsOpt → finalizedAt getStatus k = false) →
      pollTransactionStatus getStatus maxAttemptsOpt =
        Except.error ("Transaction polling timeout after " ++
          toString (effectiveMaxAttempts maxAttemptsOpt) ++ " attempts")) ∧
    (∀ k st, k < effectiveMaxAttempts maxAttemptsOpt → getStatus k = some st →
      isFinalized st = true → (∀ j, j < k → finalizedAt getStatus j = false) →
      pollTransactionStatus getStatus maxAttemptsOpt = Except.ok st) := by
  refine ⟨?_, ?_, ?_⟩
  · exact pollLoop_total getStatus (effectiveMaxAttempts maxAttemptsOpt)
      (effectiveMaxAttempts maxAttemptsOpt) 0
  · intro h
    exact pollLoop_timeout getStatus (effectiveMaxAttempts maxAttemptsOpt)
      (effectiveMaxAttempts maxAttemptsOpt) 0 (fun k hk => by simpa using h k hk)
  · intro k st hk hgs hfin hmin
    exact pollLoop_first getStatus (effectiveMaxAttempts maxAttemptsOpt)
      (effectiveMaxAttempts maxAttemptsOpt) k 0 st hk (by simpa using hgs) hfin
      (fun j hj => by simpa using hmin j hj)

/-- C7 witness: with a bound of 5 attempts and the first finalized response
at attempt 2, polling returns the SUCCESS status. -/
theorem holdis_C7_polling_bounded_witness :
    pollTransactionStatus pollStreamWitness (some 5) =
      Except.ok { status := "SUCCESS" } :=
  (holdis_C7_polling_bounded pollStreamWitness (some 5)).2.2 2
    { status := "SUCCESS" } (by decide) rfl rfl (by decide)

/-- C8: for every HMAC primitive, secret and request, the webhook handler
processes the payload exactly when the request carries a signature equal to
the HMAC of the raw body under the secret; a missing signature is rejected
with 401 before processing, and a non-matching signature is rejected with
401 before processing. -/
theorem holdis_C8_webhook_signature (hmacSha256 : String → String → String)
    (secret : String) (req : WebhookRequest) :
    ((handleBlockradarWebhook hmacSha256 secret req).isProcessed = true ↔
      req.signatureHeader = some (hmacSha256 secret req.rawBody)) ∧
    (req.signatureHeader = none →
      handleBlockradarWebhook hmacSha256 secret req =
        WebhookResult.rejected 401 "Missing signature") ∧
    (∀ sig, req.signatureHeader = some sig → sig ≠ hmacSha256 secret req.rawBody →
      handleBlockradarWebhook hmacSha256 secret req =
        WebhookResult.rejected 401 "Invalid signature") := by
  obtain ⟨sigHeader, rawBody⟩ := req
  cases sigHeader with
  | none =>
    refine ⟨?_, fun _ => rfl, ?_⟩
    · simp [handleBlockradarWebhook, WebhookResult.isProcessed]
    · intro sig hsig
      exact absurd hsig (by simp)
  | some sig =>
    by_cases hs : sig = hmacSha256 secret rawBody
    · subst hs
      refine ⟨?_, ?_, ?_⟩
      · simp [handleBlockradarWebhook, verifyWebhookSignature,
          WebhookResult.isProcessed]
      · intro hsig
        exact absurd hsig (by simp)
      · intro sig2 hsig hne
        simp only [Option.some.injEq] at hsig
        exact absurd hsig.symm hne
    · refine ⟨?_, ?_, ?_⟩
      · simp [handleBlockradarWebhook, verifyWebhookSignature,
          WebhookResult.isProcessed, hs]
      · intro hsig
        exact absurd hsig (by simp)
      · intro sig2 hsig hne
        simp only [Option.some.injEq] at hsig
        subst hsig
        simp [handleBlockradarWebhook, verifyWebhookSignature, hs]

/-- C8 witness: with the HMAC primitive instantiated to string concatenation
and secret key, the request carrying exactly the concatenated digest is
processed and a missing signature is rejected with 401. -/
theorem holdis_C8_webhook_signature_witness :
    (handleBlockradarWebhook (fun s p => s ++ p) "key"
      { signatureHeader := some "keybody", rawBody := "body" }).isProcessed = true ∧
    handleBlockradarWebhook (fun s p => s ++ p) "key"
      { signatureHeader := none, rawBody := "body" } =
      WebhookResult.rejected 401 "Missing signature" :=
  ⟨(holdis_C8_webhook_signature (fun s p => s ++ p) "key"
      { signatureHeader := some "keybody", rawBody := "body" }).1.mpr (by decide),
   (holdis_C8_webhook_signature (fun s p => s ++ p) "key"
      { signatureHeader := none, rawBody := "body" }).2.1 rfl⟩

/-- Every log iterated by processBlockEvents lies inside the requested
inclusive block range. -/
lemma scanned_blockNumber_bounds {env : Env} {chain : List RawEvent}
    {fromBlock toBlock : Nat} {e : RawEvent}
    (he : e ∈ (processBlockEvents env chain fromBlock toBlock).1) :
    fromBlock ≤ e.blockNumber ∧ e.blockNumber ≤ toBlock := by
  by_cases hlt : toBlock < fromBlock
  · unfold processBlockEvents at he
    rw [if_pos hlt] at he
    exact absurd he (by simp)
  · unfold processBlockEvents at he
    rw [if_neg hlt] at he
    dsimp only at he
    simp only [List.mem_flatMap] at he
    obtain ⟨kind, -, hmem⟩ := he
    unfold getLogs at hmem
    rw [List.mem_filter] at hmem
    obtain ⟨-, hcond⟩ := hmem
    simp only [Bool.and_eq_true, decide_eq_true_eq] at hcond
    exact ⟨hcond.1.2, hcond.2⟩

/-- Invariant of the watch loop: starting from a state whose cursor is at
least startBlock and whose scanned logs all lie strictly above startBlock,
and feeding only block numbers at least startBlock, every scanned log stays
strictly above startBlock. -/
lemma runListener_scanned_above (env : Env) (chain : List RawEvent)
    (startBlock : Nat) :
    ∀ (blocks : List Nat) (s : ListenerState),
      startBlock ≤ s.lastProcessedBlock →
      (∀ e ∈ s.scanned, startBlock < e.blockNumber) →
      (∀ b ∈ blocks, startBlock ≤ b) →
      ∀ e ∈ (blocks.foldl (onBlockNumber env chain) s).scanned,
        startBlock < e.blockNumber := by
  intro blocks
  induction blocks with
  | nil => intro s _ hs _ e he; exact hs e he
  | cons b bs ih =>
    intro s hlast hs hb e he
    simp only [List.foldl_cons] at he
    refine ih (onBlockNumber env chain s b) ?_ ?_
      (fun x hx => hb x (List.mem_cons_of_mem b hx)) e he
    · exact hb b (List.mem_cons_self b bs)
    · intro x hx
      dsimp only [onBlockNumber] at hx
      rw [List.mem_append] at hx
      cases hx with
      | inl hmem => exact hs x hmem
      | inr hmem =>
        have hfrom := (scanned_blockNumber_bounds hmem).1
        omega

/-- C10: the listener initialises its in-memory cursor to the latest chain
block read at startup, and provided every block number delivered by the
watcher is at least that startup block, every log the block-range path ever
scans has a block number strictly greater than the startup block. -/
theorem holdis_C10_only_blocks_after_startup (env : Env) (chain : List RawEvent)
    (blocks : List Nat) (h : ∀ b ∈ blocks, env.latestBlock ≤ b) :
    (startListener env chain []).lastProcessedBlock = env.latestBlock ∧
    ∀ e ∈ (startListener env chain blocks).scanned,
      env.latestBlock < e.blockNumber := by
  refine ⟨rfl, ?_⟩
  exact runListener_scanned_above env chain env.latestBlock blocks
    { lastProcessedBlock := env.latestBlock, scanned := [], transfers := [] }
    le_rfl (by intro e he; exact absurd he (by simp)) h

/-- C10 witness: with startup block 10 and delivered block 12, the scanned
log at block 12 is indeed strictly above the startup block. -/
theorem holdis_C10_only_blocks_after_startup_witness :
    envGasShort.latestBlock < completedEventReplay.blockNumber :=
  (holdis_C10_only_blocks_after_startup envGasShort chainGasShort [12]
    (by decide)).2 completedEventReplay (by decide)

end HolDis
